import Mathlib

/-!
Verification development for the OPEX budget-tracking repository.

The definitions below are a shallow embedding of the spreadsheet-import,
upsert, deletion, purchase-order and reporting logic of the repository
(src/pages/monitor.py, src/pages/edit_budget.py, src/pages/add_new.py,
src/Home.py).  Spreadsheet cell values are modelled by the inductive type
`Val` (a Python/pandas value: `None`, `NaN`, a string, a float, or a
Timestamp reduced to its date); machine floats are modelled by `ℚ`;
SQL tables are modelled by lists of records; nullable columns by `Option`.
-/

namespace Opex

/-- A cell value as seen by the import code after `pandas.read_excel`:
`none_` models Python `None`, `nan` models a float NaN (the value pandas
puts in empty cells), `str` a string, `num` a numeric value (int/float,
modelled by `ℚ`), and `date` a pandas `Timestamp`/`datetime` reduced to
its calendar date. -/
inductive Val : Type where
  | none_ : Val
  | nan : Val
  | str : String → Val
  | num : ℚ → Val
  | date : ℕ → ℕ → ℕ → Val
  deriving DecidableEq, Repr

/-- `pd.isna` on a scalar: true exactly for `None` and `NaN`. -/
def isna : Val → Bool
  | .none_ => true
  | .nan => true
  | _ => false

/-- Python truth-value test `not v` (used as `if not pr_number:`):
`None`, the empty string and numeric zero are falsy; NaN, non-empty
strings, non-zero numbers and datetimes are truthy. -/
def valFalsy : Val → Bool
  | .none_ => true
  | .str s => s = ""
  | .num q => q = 0
  | _ => false

/-- A spreadsheet row after header normalization: an association list from
(lower-cased) column name to cell value, as produced by `row.to_dict()`. -/
abbrev Row := List (String × Val)

/-- Python `row[name]` after a `name in row` check, i.e. `dict.get`:
the stored value, or `None` when the key is absent. -/
def rowGet (r : Row) (c : String) : Val :=
  (r.lookup c).getD Val.none_

/-- `r.get(col, None)` where `col` is the (possibly absent) resolved
column name for a per-year field: an absent column yields `None`
(in the source an absent key is looked up as `""`, which is never a
header, so the `dict.get` default `None` is returned). -/
def rowGetO (r : Row) : Option String → Val
  | none => Val.none_
  | some c => rowGet r c

/-- The `ALIASES` table of `monitor.py` (`ALIASES.get(key, [])`): for each
logical field, the list of accepted header spellings, in priority order.
Only the keys consumed by `insert_excel_data`'s payload are listed; the
keys used solely for foreign-key resolution (department / account /
status), which this development abstracts, are omitted. -/
def ALIASES : String → List String
  | "pr_number" => ["pr number", "pr_number", "pr no", "pr"]
  | "expense_type" => ["expense type", "expense", "type of expense"]
  | "c_code" => ["c code", "c_code", "c-code", "ccode"]
  | "cost_center" => ["cost center", "cost_center", "costcentre"]
  | "sub_category" => ["sub-category", "sub category", "subcategory", "sub_category"]
  | "risk_comment" => ["risk", "risk comment", "risk_comment"]
  | "procueremnt_comment" =>
      ["procueremnt comment", "procurement comment", "procurement_comment"]
  | "other" => ["other"]
  | "line_budget" => ["line budget", "line_budget"]
  | "vendor" => ["vendor", "vendor name"]
  | "ifrs_16" => ["ifrs 16", "ifrs_16"]
  | "email" => ["email", "contact email"]
  | "mobile" => ["mobile", "phone", "contact mobile"]
  | "start_date" =>
      ["start", "start date", "start_date", "contract start date", "contract start",
       "valid from", "from date", "from"]
  | "end_date" =>
      ["end", "end date", "end_date", "contract end date", "contract end",
       "expiry date", "expiration date", "valid to", "to date", "to"]
  | "type_of_cost" => ["type of cost", "type_of_cost"]
  | "type_of_amc" => ["type of amc", "type_of_amc"]
  | "remarks" => ["remarks", "notes", "comment"]
  | "cvd_status" => ["cvd status", "cvd_status"]
  | "quotation_received" => ["quotation received", "quotation_received", "quote received"]
  | "unit_cost" => ["unit cost", "unit price"]
  | _ => []

/-- Helper for `_pick`: scan the alias list; the first alias present in
the row decides the result (its value, or `None` when that value is NA). -/
def pickAux (r : Row) : List String → Val
  | [] => Val.none_
  | a :: rest =>
      match r.lookup a with
      | some v => if isna v then Val.none_ else v
      | none => pickAux r rest

/-- `_pick(row, key, default=None)` of monitor.py: pick a value from a row
dict using the known aliases for `key`. -/
def pick (r : Row) (key : String) : Val :=
  pickAux r (ALIASES key)

/-- Decimal digit test, `'0' ≤ c ≤ '9'`. -/
def isDigitCh (c : Char) : Bool :=
  '0' ≤ c && c ≤ '9'

/-- Numeric value of a digit string (most significant digit first). -/
def digitsVal (cs : List Char) : ℕ :=
  cs.foldl (fun a c => a * 10 + (c.toNat - 48)) 0

/-- Whitespace for Python `str.strip()` (the ASCII whitespace the
inputs can contain). -/
def isSpaceCh (c : Char) : Bool :=
  c = ' ' || c = '\t' || c = '\n' || c = '\r'

/-- Drop leading whitespace characters. -/
def dropSpaces : List Char → List Char
  | [] => []
  | c :: rest => if isSpaceCh c then dropSpaces rest else c :: rest

/-- Python `s.strip()`: remove leading and trailing whitespace. -/
def pyStrip (s : String) : String :=
  String.mk (dropSpaces (dropSpaces s.toList.reverse).reverse)

/-- ASCII lower-casing of one character (Python `str.lower()` on the
ASCII inputs involved). -/
def toLowerCh (c : Char) : Char :=
  if 'A' ≤ c && c ≤ 'Z' then Char.ofNat (c.toNat + 32) else c

/-- Python `s.lower()`. -/
def pyLower (s : String) : String :=
  String.mk (s.toList.map toLowerCh)

/-- Multiplication on `ℚ` written through `Rat.divInt` (definitionally
evaluable, unlike the `@[irreducible]` library operation; the value is
the ordinary product). -/
def qMul (a b : ℚ) : ℚ := Rat.divInt (a.num * b.num) ((a.den : ℤ) * (b.den : ℤ))

/-- Addition on `ℚ` through `Rat.divInt`. -/
def qAdd (a b : ℚ) : ℚ :=
  Rat.divInt (a.num * (b.den : ℤ) + b.num * (a.den : ℤ)) ((a.den : ℤ) * (b.den : ℤ))

/-- Division on `ℚ` through `Rat.divInt` (division by zero yields 0,
as for the library operation). -/
def qDiv (a b : ℚ) : ℚ := Rat.divInt (a.num * (b.den : ℤ)) ((a.den : ℤ) * b.num)

/-- Negation on `ℚ` through `Rat.divInt`. -/
def qNeg (a : ℚ) : ℚ := Rat.divInt (-a.num) (a.den : ℤ)

/-- `⌊q⌋` computed from the reduced fraction. -/
def ratFloor (q : ℚ) : ℤ := Int.ediv q.num (q.den : ℤ)

/-- Core of CPython `float(str)` on the plain decimal grammar
`[+-] digits [. digits]` (at least one digit overall).  Exponents,
underscore grouping and inf/nan spellings are not modelled; all inputs
the theorems touch are plain decimals, and a thousands separator such as
in `"15,000"` is rejected exactly as `float` rejects it. -/
def parseDecCore (cs : List Char) : Option ℚ :=
  let (ip, rest) := cs.span isDigitCh
  match rest with
  | [] => if ip.isEmpty then none else some (digitsVal ip)
  | '.' :: rest2 =>
      let (fp, rest3) := rest2.span isDigitCh
      if rest3.isEmpty && !(ip.isEmpty && fp.isEmpty) then
        some (Rat.divInt
          ((digitsVal ip * 10 ^ fp.length + digitsVal fp : ℕ) : ℤ)
          ((10 ^ fp.length : ℕ) : ℤ))
      else none
  | _ => none

/-- CPython `float(s)` for a string `s`: surrounding whitespace is
stripped, an optional sign is consumed, then the decimal core; `none`
models the `ValueError` that the callers catch. -/
def pyFloatOfString (s : String) : Option ℚ :=
  match (pyStrip s).toList with
  | '-' :: cs => (parseDecCore cs).map qNeg
  | '+' :: cs => parseDecCore cs
  | cs => parseDecCore cs

/-- Python `float(v)` on a cell value, with the raised `TypeError` /
`ValueError` modelled as `none` (every call site catches it).  `NaN`
and `None` never reach this in the source (they are filtered first),
and `float` of a Timestamp raises. -/
def pyFloat : Val → Option ℚ
  | .num q => some q
  | .str s => pyFloatOfString s
  | _ => none

/-- `_to_float(v, default=None)` of monitor.py. -/
def to_float (v : Val) : Option ℚ :=
  if v = Val.none_ || v = Val.str "" || isna v then none
  else pyFloat v

/-- `_to_bool(v, default=0)` of monitor.py (the only default used). -/
def to_bool (v : Val) : ℕ :=
  match v with
  | .num q => if q = 0 then 0 else if q = 1 then 1 else 0
  | .str s =>
      let t := pyLower (pyStrip s)
      if t = "yes" || t = "y" || t = "true" || t = "1" then 1
      else if t = "no" || t = "n" || t = "false" || t = "0" then 0
      else 0
  | _ => 0

/-- A calendar date (year, month, day). -/
structure Ymd where
  y : ℕ
  m : ℕ
  d : ℕ
  deriving DecidableEq, Repr

/-- Gregorian leap-year rule. -/
def isLeap (y : ℕ) : Bool :=
  (y % 4 = 0 && y % 100 ≠ 0) || y % 400 = 0

/-- Number of days in a month. -/
def daysInMonth (y m : ℕ) : ℕ :=
  if m = 2 then (if isLeap y then 29 else 28)
  else if m = 4 || m = 6 || m = 9 || m = 11 then 30
  else 31

/-- A calendar date accepted by the parser model: valid month/day, and a
year inside the range of pandas `Timestamp` values (out-of-range years
make `pd.to_datetime` raise, which the source treats as a parse failure;
the partial boundary years 1677/2262 are approximated away). -/
def validYmd (dt : Ymd) : Bool :=
  1 ≤ dt.m && dt.m ≤ 12 && 1 ≤ dt.d && dt.d ≤ daysInMonth dt.y dt.m &&
  1678 ≤ dt.y && dt.y ≤ 2261

/-- Split a character list on the date separators `-` and `/`. -/
def splitDateTokens (cs : List Char) : List (List Char) :=
  match cs with
  | [] => [[]]
  | c :: rest =>
      let parts := splitDateTokens rest
      if c = '-' || c = '/' then [] :: parts
      else
        match parts with
        | p :: ps => (c :: p) :: ps
        | [] => [[c]]

/-- A numeric date component: non-empty and all digits. -/
def partNat (p : List Char) : Option ℕ :=
  if !p.isEmpty && p.all isDigitCh then some (digitsVal p) else none

/-- Model of `pd.to_datetime(s, dayfirst=True)` restricted to the
three-component separated formats the import feeds it (`dd-mm-yyyy`,
`dd/mm/yyyy`, and ISO `yyyy-mm-dd`; four-digit years).  As in dateutil,
`dayfirst` is a preference: when the day-first reading is invalid the
month-first reading is tried.  Everything else is a parse failure. -/
def dayFirstParse (s : String) : Option Ymd :=
  match (splitDateTokens s.toList).map partNat with
  | [some a, some b, some c] =>
      if ((splitDateTokens s.toList).headD []).length = 4 then
        if validYmd ⟨a, b, c⟩ then some ⟨a, b, c⟩ else none
      else if validYmd ⟨c, b, a⟩ then some ⟨c, b, a⟩
      else if validYmd ⟨c, a, b⟩ then some ⟨c, a, b⟩
      else none
  | _ => none

/-- Model of `pd.to_datetime(s, dayfirst=False)` on the same formats:
month-first preference, with the day-first reading as dateutil's
fallback when the month is out of range. -/
def monthFirstParse (s : String) : Option Ymd :=
  match (splitDateTokens s.toList).map partNat with
  | [some a, some b, some c] =>
      if ((splitDateTokens s.toList).headD []).length = 4 then
        if validYmd ⟨a, b, c⟩ then some ⟨a, b, c⟩ else none
      else if validYmd ⟨c, a, b⟩ then some ⟨c, a, b⟩
      else if validYmd ⟨c, b, a⟩ then some ⟨c, b, a⟩
      else none
  | _ => none

/-- Remove the first `.` of a string (Python `s.replace(".", "", 1)`). -/
def removeFirstDot : List Char → List Char
  | [] => []
  | '.' :: rest => rest
  | c :: rest => c :: removeFirstDot rest

/-- `s.replace(".", "", 1).isdigit()` of the Excel-serial branch. -/
def numericLike (s : String) : Bool :=
  let cs := removeFirstDot s.toList
  !cs.isEmpty && cs.all isDigitCh

/-- Days since the civil epoch 0000-03-01 of a Gregorian date
(era-based day-count; Howard Hinnant's `days_from_civil`, shifted so
all values are naturals). -/
def daysFromCivil (y m d : ℕ) : ℕ :=
  let y' := if m ≤ 2 then y - 1 else y
  let era := y' / 400
  let yoe := y' % 400
  let mp := (m + 9) % 12
  let doy := (153 * mp + 2) / 5 + d - 1
  let doe := yoe * 365 + yoe / 4 - yoe / 100 + doy
  era * 146097 + doe

/-- Inverse of `daysFromCivil` (Hinnant's `civil_from_days`). -/
def civilFromDays (z : ℕ) : Ymd :=
  let era := z / 146097
  let doe := z % 146097
  let yoe := (doe - doe / 1460 + doe / 36524 - doe / 146096) / 365
  let y := yoe + era * 400
  let doy := doe - (365 * yoe + yoe / 4 - yoe / 100)
  let mp := (5 * doy + 2) / 153
  let d := doy - (153 * mp + 2) / 5 + 1
  let m := if mp < 10 then mp + 3 else mp - 9
  ⟨if m ≤ 2 then y + 1 else y, m, d⟩

/-- Day count of the spreadsheet epoch 1899-12-30. -/
def excelEpochDays : ℕ := daysFromCivil 1899 12 30

/-- Left-pad a numeral with zeros to the given width. -/
def padNum (w n : ℕ) : String :=
  let s := toString n
  String.mk (List.replicate (w - s.length) '0') ++ s

/-- `date.isoformat()`: `YYYY-MM-DD`. -/
def isoStr (dt : Ymd) : String :=
  padNum 4 dt.y ++ "-" ++ padNum 2 dt.m ++ "-" ++ padNum 2 dt.d

/-- `pd.to_datetime(q, unit="D", origin="1899-12-30").date().isoformat()`
for `q ≥ 1`: whole days from the 1899-12-30 epoch (the time-of-day of a
fractional serial is dropped by `.date()`). -/
def serialIso (q : ℚ) : String :=
  isoStr (civilFromDays (excelEpochDays + (ratFloor q).toNat))

/-- Python `str(float)` for a numeric cell: optional sign, integer part,
`.`, fractional digits (`"0"` for an integral value; non-integral values
are truncated to 17 fractional digits, approximating CPython's shortest
repr — the date parsers only ever reject these strings, so only the
shape matters). -/
def pyFloatStr (q : ℚ) : String :=
  let sign := if q.num < 0 then "-" else ""
  let na := q.num.natAbs
  let ip := na / q.den
  let rem := na % q.den
  let fracDigits := if rem = 0 then "0" else toString (rem * 10 ^ 17 / q.den)
  sign ++ toString ip ++ "." ++ fracDigits

/-- The string cascade of `_to_date_str` (after the NA/empty guards):
day-first parse, then month-first parse, then — when the value is
numeric-like — the Excel-serial branch guarded by `1 ≤ num ≤ 80000`. -/
def dateCascade (s : String) (serialNum : Option ℚ) : Option String :=
  match dayFirstParse s with
  | some dt => some (isoStr dt)
  | none =>
      match monthFirstParse s with
      | some dt => some (isoStr dt)
      | none =>
          match serialNum with
          | some q => if 1 ≤ q && q ≤ 80000 then some (serialIso q) else none
          | none => none

/-- `_to_date_str(v)` of monitor.py: ISO date string or `None`; never
raises.  `None`, NA and blank strings map to `None`; Timestamps take
their own date; strings go through the parse cascade (the serial branch
applies only to `isdigit`-like strings); numeric values are stringified
first and their serial value is the number itself. -/
def to_date_str : Val → Option String
  | .none_ => none
  | .nan => none
  | .date y m d => some (isoStr ⟨y, m, d⟩)
  | .str s =>
      let t := pyStrip s
      if t = "" then none
      else dateCascade t (if numericLike t then pyFloatOfString t else none)
  | .num q => dateCascade (pyFloatStr q) (some q)

/-- The per-year resolved columns of `insert_excel_data`
(`budget_cols[y]`, `units_cols[y]`, `po_amount_cols[y]`,
`po_number_cols[y]`, `approval_budget_cols[y]`): `_find_col` returns a
header name or `None`. -/
structure YearCols where
  budgetCol : Option String
  unitsCol : Option String
  poAmountCol : Option String
  poNumberCol : Option String
  approvalBudgetCol : Option String
  deriving DecidableEq, Repr

/-- `has_signal` of the import loop: at least one of the five per-year
columns exists and holds a non-NA value in the row. -/
def hasSignal (r : Row) (yc : YearCols) : Bool :=
  (yc.budgetCol.isSome && !isna (rowGetO r yc.budgetCol)) ||
  (yc.unitsCol.isSome && !isna (rowGetO r yc.unitsCol)) ||
  (yc.poAmountCol.isSome && !isna (rowGetO r yc.poAmountCol)) ||
  (yc.poNumberCol.isSome && !isna (rowGetO r yc.poNumberCol)) ||
  (yc.approvalBudgetCol.isSome && !isna (rowGetO r yc.approvalBudgetCol))

/-- The row-level `unit_cost = _to_float(_pick(r, "unit_cost"))`. -/
def unitCostOf (r : Row) : Option ℚ :=
  to_float (pick r "unit_cost")

/-- The `amt` variable of the import loop for one (row, year): the direct
budget-column value; when that is `None`/NA and both a units column and a
global unit cost are present, `float(units) * float(unit_cost)` (a failed
`float` conversion leaves `amt` unchanged). -/
def computeAmt (r : Row) (yc : YearCols) (unit_cost : Option ℚ) : Val :=
  let amt0 := rowGetO r yc.budgetCol
  if isna amt0 && yc.unitsCol.isSome && unit_cost.isSome then
    let unitsVal := rowGetO r yc.unitsCol
    if !isna unitsVal then
      match pyFloat unitsVal, unit_cost with
      | some u, some c => Val.num (qMul u c)
      | _, _ => amt0
    else amt0
  else amt0

/-- `approved_budget_val` for one (row, year): `_to_float` of the
approved-budget cell when that per-year column was resolved. -/
def approvedBudgetVal (r : Row) (yc : YearCols) : Option ℚ :=
  match yc.approvalBudgetCol with
  | some c => to_float (rowGet r c)
  | none => none

/-- The foreign keys resolved for one row against the reference tables
(`dept_id`, `account_id`, `ref_status_id`); the string-matching lookup
itself is abstracted into a caller-supplied resolver. -/
structure Refs where
  dept : Option ℕ
  account : Option ℕ
  status : Option ℕ
  deriving DecidableEq, Repr

/-- The `payload` dictionary built by `insert_excel_data` for one
(row, year), field for field. -/
structure Payload where
  pr_number : Val
  year : ℕ
  ref_departments : Option ℕ
  ref_account : Option ℕ
  ref_status : Option ℕ
  expense_type : Val
  approval_amount : Option ℚ
  c_code : Val
  cost_center : Val
  line_budget : Val
  vendor : Val
  sub_category : Val
  ifrs_16 : Val
  email : Val
  mobile : Val
  start_date : Option String
  end_date : Option String
  type_of_cost : Val
  type_of_amc : Val
  remarks : Val
  cvd_status : Val
  risk_comment : Val
  procueremnt_comment : Val
  other : Val
  approved_budget : Option ℚ
  budget_year : Option ℕ
  quotation_received : ℕ
  approved : ℕ
  created : String
  created_by : String
  modified : String
  modified_by : String
  version : ℕ
  deriving DecidableEq, Repr

/-- Build the upsert payload for one (row, year) exactly as the loop body
of `insert_excel_data` does (`now` is `datetime.now().isoformat()` at
the time of the import).  The live `amc_contracts` schema has every payload
column, so the `valid_cols` filtering drops nothing here. -/
def buildPayload (refs : Refs) (r : Row) (yc : YearCols) (y : ℕ) (now : String) : Payload :=
  let abv := approvedBudgetVal r yc
  { pr_number := pick r "pr_number"
    year := y
    ref_departments := refs.dept
    ref_account := refs.account
    ref_status := refs.status
    expense_type := pick r "expense_type"
    approval_amount := to_float (computeAmt r yc (unitCostOf r))
    c_code := pick r "c_code"
    cost_center := pick r "cost_center"
    line_budget := pick r "line_budget"
    vendor := pick r "vendor"
    sub_category := pick r "sub_category"
    ifrs_16 := pick r "ifrs_16"
    email := pick r "email"
    mobile := pick r "mobile"
    start_date := to_date_str (pick r "start_date")
    end_date := to_date_str (pick r "end_date")
    type_of_cost := pick r "type_of_cost"
    type_of_amc := pick r "type_of_amc"
    remarks := pick r "remarks"
    cvd_status := pick r "cvd_status"
    risk_comment := pick r "risk_comment"
    procueremnt_comment := pick r "procueremnt_comment"
    other := pick r "other"
    approved_budget := abv
    budget_year := if abv.isSome then some y else none
    quotation_received := to_bool (pick r "quotation_received")
    approved := if abv.isSome then 1 else 0
    created := now
    created_by := "admin"
    modified := now
    modified_by := "admin"
    version := 1 }

/-- A stored `amc_contracts` row: surrogate id plus the payload columns. -/
structure StoredContract where
  id : ℕ
  data : Payload
  deriving DecidableEq, Repr

/-- The natural key (pr_number, year) of a stored contract row. -/
def contractKey (c : StoredContract) : Val × ℕ :=
  (c.data.pr_number, c.data.year)

/-- The natural key of a payload. -/
def payloadKey (p : Payload) : Val × ℕ :=
  (p.pr_number, p.year)

/-- Number of stored rows with a given natural key. -/
def countKey (db : List StoredContract) (k : Val × ℕ) : ℕ :=
  (db.filter (fun c => decide (contractKey c = k))).length

/-- The stored row with a given natural key (first match). -/
def findKey (db : List StoredContract) (k : Val × ℕ) : Option StoredContract :=
  db.find? (fun c => decide (contractKey c = k))

/-- Fresh surrogate id for an insert. -/
def nextContractId (db : List StoredContract) : ℕ :=
  (db.map (·.id)).foldl max 0 + 1

/-- The conflict action of the contract upsert: a row whose natural key
matches the payload takes all payload columns, keeping its surrogate id
(the key columns are overwritten with their own values). -/
def updateWith (p : Payload) (c : StoredContract) : StoredContract :=
  if contractKey c = payloadKey p then { c with data := p } else c

/-- The contract write of `insert_excel_data`:
`INSERT INTO amc_contracts … ON CONFLICT(pr_number, year) DO UPDATE SET`
every non-key column to the new value. -/
def upsertContract (db : List StoredContract) (p : Payload) : List StoredContract :=
  match findKey db (payloadKey p) with
  | some _ => db.map (updateWith p)
  | none => db ++ [⟨nextContractId db, p⟩]

/-- A stored `amc_pos` row.  The bulk-import insert names only
(pr_number, year, po_number, po_amount, audit columns), so
`ref_amc_contract` and `pr_amount` are NULL for imported rows; the
manual-edit upsert fills them. -/
structure PORow where
  id : ℕ
  ref_amc_contract : Option ℕ
  pr_number : Option String
  year : ℕ
  po_number : Option String
  po_amount : Option ℚ
  pr_amount : Option ℚ
  created : String
  created_by : String
  modified : String
  modified_by : String
  version : ℕ
  deriving DecidableEq, Repr

/-- Python `str(v)` for the values the PO insert stringifies. -/
def pyStr : Val → String
  | .none_ => "None"
  | .nan => "nan"
  | .str s => s
  | .num q => pyFloatStr q
  | .date y m d => isoStr ⟨y, m, d⟩

/-- Fresh surrogate id for an `amc_pos` insert. -/
def nextPoId (pos : List PORow) : ℕ :=
  (pos.map (·.id)).foldl max 0 + 1

/-- The PO row appended by the bulk import for one (row, year):
`INSERT INTO amc_pos (pr_number, year, po_number, po_amount, created,
created_by, modified, modified_by, version) VALUES …` — no
`ref_amc_contract`, no `pr_amount`. -/
def mkImportPO (id : ℕ) (pr : Val) (y : ℕ) (poNo poAmt : Val) (now : String) : PORow :=
  { id := id
    ref_amc_contract := none
    pr_number := some (pyStr pr)
    year := y
    po_number := if isna poNo then none else some (pyStr poNo)
    po_amount := if isna poAmt then none else to_float poAmt
    pr_amount := none
    created := now
    created_by := "admin"
    modified := now
    modified_by := "admin"
    version := 1 }

/-- The state the import mutates: the contracts table, the PO table and
the user-visible messages (`st.error`). -/
structure ImportState where
  contracts : List StoredContract
  pos : List PORow
  warnings : List String
  deriving Repr

/-- Per-import context: the foreign-key resolver, the per-year resolved
columns, and the detected years (sorted set of 4-digit tokens). -/
structure ImportCtx where
  refs : Row → Refs
  cols : ℕ → YearCols
  years : List ℕ

/-- The skip message of `insert_excel_data` for a row with a falsy PR
number (`i` is the 0-based dataframe index). -/
def skipMsg (i : ℕ) : String :=
  "Row " ++ toString (i + 1) ++ ": Missing PR Number. Skipped."

/-- One iteration of the inner `for y in detected_years` loop: skip the
year without signal; otherwise upsert the contract payload and, when the
row carries a PO number or PO amount for the year, append a PO row. -/
def importYear (ctx : ImportCtx) (r : Row) (now : String)
    (st : ImportState) (y : ℕ) : ImportState :=
  let yc := ctx.cols y
  if hasSignal r yc then
    let p := buildPayload (ctx.refs r) r yc y now
    let st1 : ImportState := { st with contracts := upsertContract st.contracts p }
    let poNo := rowGetO r yc.poNumberCol
    let poAmt := rowGetO r yc.poAmountCol
    if !isna poNo || !isna poAmt then
      { st1 with
        pos := st1.pos ++ [mkImportPO (nextPoId st1.pos) (pick r "pr_number") y poNo poAmt now] }
    else st1
  else st

/-- One iteration of the outer row loop: a falsy PR number skips the row
with a user-visible warning; otherwise every detected year is processed. -/
def importRow (ctx : ImportCtx) (now : String) (st : ImportState)
    (ir : ℕ × Row) : ImportState :=
  if valFalsy (pick ir.2 "pr_number") then
    { st with warnings := st.warnings ++ [skipMsg ir.1] }
  else
    ctx.years.foldl (importYear ctx ir.2 now) st

/-- `insert_excel_data(df)`: process the rows in order (the department /
account / status dataframe lookups are folded into `ctx.refs`). -/
def insert_excel_data (ctx : ImportCtx) (now : String)
    (rows : List Row) (st : ImportState) : ImportState :=
  rows.enum.foldl (importRow ctx now) st

/-- `ORDER BY id DESC LIMIT 1`: the element with the largest id. -/
def maxByIdG {α : Type} (idf : α → ℕ) : List α → Option α
  | [] => none
  | a :: l =>
      match maxByIdG idf l with
      | none => some a
      | some b => if idf a < idf b then some b else some a

/-- `fetch_pos_for_contract_year(ref_amc_contract, year)` of
edit_budget.py: the newest `amc_pos` row (largest id) with
`ref_amc_contract = ? AND year = ?`. -/
def fetch_pos_for_contract_year (pos : List PORow) (ref : ℕ) (y : ℕ) : Option PORow :=
  maxByIdG (·.id)
    (pos.filter (fun p => decide (p.ref_amc_contract = some ref ∧ p.year = y)))

/-- `upsert_amc_pos(...)` of edit_budget.py: find the newest row with
`ref_amc_contract = ? AND year = ?`; update its PO/PR columns if found,
otherwise insert a new row carrying the `ref_amc_contract` link. -/
def upsert_amc_pos (pos : List PORow) (ref : ℕ) (y : ℕ)
    (pr_amount : ℚ) (pr_number : String) (po_number : String) (po_amount : ℚ)
    (now : String) : List PORow :=
  match maxByIdG (·.id)
      (pos.filter (fun p => decide (p.ref_amc_contract = some ref ∧ p.year = y))) with
  | some found =>
      pos.map (fun p =>
        if p.id = found.id then
          { p with
            po_amount := some po_amount
            po_number := some po_number
            pr_amount := some pr_amount
            pr_number := some pr_number
            modified := now
            modified_by := "admin"
            version := p.version + 1 }
        else p)
  | none =>
      pos ++ [{ id := nextPoId pos
                ref_amc_contract := some ref
                pr_number := some pr_number
                year := y
                po_number := some po_number
                po_amount := some po_amount
                pr_amount := some pr_amount
                created := now
                created_by := "admin"
                modified := now
                modified_by := "admin"
                version := 1 }]

/-- A stored `attachment` row (schema from add_new.py's header comment;
only the columns the claims touch are carried). -/
structure AttRow where
  id : ℕ
  table_name : String
  ref_id : ℕ
  filename : String
  path : String
  deriving DecidableEq, Repr

/-- The whole persistent store, as far as the delete claim needs it. -/
structure AppDB where
  contracts : List StoredContract
  pos : List PORow
  attachments : List AttRow
  deriving Repr

/-- `delete_record(record_id)` of edit_budget.py:
`DELETE FROM amc_contracts WHERE id = ?` — nothing else is touched. -/
def delete_record (record_id : ℕ) (db : AppDB) : AppDB :=
  { db with contracts := db.contracts.filter (fun c => decide (c.id ≠ record_id)) }

/-- A `yearly_budget` row (yearly_budget.py's schema: surrogate id,
year, VALUE). -/
structure YBRow where
  id : ℕ
  year : ℕ
  value : Option ℚ
  deriving DecidableEq, Repr

/-- Home.py's budget lookup:
`SELECT "VALUE" FROM yearly_budget WHERE year = ? ORDER BY id DESC LIMIT 1`,
then `float(row[0]) if row and row[0] is not None else 0.0`. -/
def homeBudget (yb : List YBRow) (y : ℕ) : ℚ :=
  match maxByIdG (·.id) (yb.filter (fun r => decide (r.year = y))) with
  | some r => r.value.getD 0
  | none => 0

/-- Home.py's consumed figure:
`SELECT COALESCE(SUM(approved_budget), 0) FROM amc_contracts WHERE
budget_year = ?` (SQL SUM skips NULLs). -/
def consumedFor (db : List StoredContract) (y : ℕ) : ℚ :=
  ((db.filter (fun c => decide (c.data.budget_year = some y))).map
    (fun c => c.data.approved_budget.getD 0)).foldr qAdd 0

/-- `utilization = (consumed / budget * 100) if budget > 0 else None`. -/
def utilization (db : List StoredContract) (yb : List YBRow) (y : ℕ) : Option ℚ :=
  let b := homeBudget yb y
  if 0 < b then some (qMul (qDiv (consumedFor db y) b) 100) else none

/-- Round-half-to-even to an integer (model of the IEEE rounding that
Python's fixed-point formatting performs). -/
def roundHalfEven (q : ℚ) : ℤ :=
  let f := ratFloor q
  let t := 2 * (q.num - f * (q.den : ℤ))
  if t < (q.den : ℤ) then f
  else if (q.den : ℤ) < t then f + 1
  else if f % 2 = 0 then f else f + 1

/-- `_fmt_pct(x)` of Home.py on a numeric argument: `f"{x:.1f}%"`. -/
def fmt_pct (x : ℚ) : String :=
  let n := roundHalfEven (qMul x 10)
  let sign := if n < 0 then "-" else ""
  sign ++ toString (n.natAbs / 10) ++ "." ++ toString (n.natAbs % 10) ++ "%"

/-- The rendered Utilization KPI:
`_fmt_pct(utilization) if utilization is not None else 'N/A'`. -/
def utilizationDisplay (db : List StoredContract) (yb : List YBRow) (y : ℕ) : String :=
  match utilization db yb y with
  | some x => fmt_pct x
  | none => "N/A"

/-- `is_pr_number_exists(pr_number)` of add_new.py:
`SELECT 1 FROM amc_contracts WHERE pr_number = ?` — the fiscal year is
not part of the test. -/
def is_pr_number_exists (db : List StoredContract) (pr : Val) : Bool :=
  db.any (fun c => decide (c.data.pr_number = pr))

/-- The duplicate-check portion of the add-form submit handler
(add_new.py, `main`): the error list opens with the PR-exists message;
the remaining validations (amount, vendor, email, mobile, dates, PO) are
abstracted as `otherErrors`. -/
def addSubmitErrors (db : List StoredContract) (pr : Val)
    (otherErrors : List String) : List String :=
  (if is_pr_number_exists db pr then ["This PR Number already exists."] else [])
    ++ otherErrors

/-- The submission is rejected (no insert happens) iff the error list is
non-empty. -/
def addSubmitRejected (db : List StoredContract) (pr : Val)
    (otherErrors : List String) : Bool :=
  !(addSubmitErrors db pr otherErrors).isEmpty

/-! ### Concrete example data used by witnesses and counterexamples -/

/-- Empty reference resolution (nothing matched — permitted, all FKs null). -/
def refs0 : Refs := ⟨none, none, none⟩

/-- Resolved per-year columns for year 2024 of the example sheets. -/
def yc2024 : YearCols :=
  { budgetCol := some "2024 budget"
    unitsCol := some "2024 units"
    poAmountCol := none
    poNumberCol := some "2024 po#"
    approvalBudgetCol := some "approved budget 2024" }

/-- No per-year columns resolved. -/
def ycNone : YearCols := ⟨none, none, none, none, none⟩

/-- Example import context: one detected year, 2024. -/
def ctx2024 : ImportCtx :=
  { refs := fun _ => refs0
    cols := fun y => if y = 2024 then yc2024 else ycNone
    years := [2024] }

/-- An empty import state (fresh database). -/
def emptyImport : ImportState := ⟨[], [], []⟩

/-- Example row: PR number, a numeric 2024 budget, an approved budget. -/
def exRow : Row :=
  [("pr", Val.str "PR1"), ("2024 budget", Val.num 100),
   ("approved budget 2024", Val.num 500)]

/-- Example row whose 2024 budget cell holds the string `"15,000"`. -/
def rowComma : Row :=
  [("pr", Val.str "PR1"), ("2024 budget", Val.str "15,000")]

/-- Example row with a blank budget cell, 10 units and unit cost 1500. -/
def rowUnits : Row :=
  [("pr", Val.str "PR1"), ("2024 budget", Val.nan),
   ("2024 units", Val.num 10), ("unit cost", Val.num 1500)]

/-- Example row with a 2024 budget signal but no PR number at all. -/
def rowNoPr : Row := [("2024 budget", Val.num 5)]

/-- Example row carrying a 40 000 approved budget for 2024. -/
def rowB40k : Row :=
  [("pr", Val.str "PR1"), ("approved budget 2024", Val.num 40000)]

/-! ### General lemmas -/

theorem maxByIdG_eq_none {α : Type} (idf : α → ℕ) (l : List α)
    (h : maxByIdG idf l = none) : l = [] := by
  cases l with
  | nil => rfl
  | cons a t =>
      rw [maxByIdG] at h
      cases hm : maxByIdG idf t with
      | none => rw [hm] at h; cases h
      | some b => rw [hm] at h; by_cases hc : idf a < idf b <;> simp [hc] at h

theorem maxByIdG_mem {α : Type} (idf : α → ℕ) (l : List α) (r : α)
    (h : maxByIdG idf l = some r) : r ∈ l := by
  induction l with
  | nil => simp [maxByIdG] at h
  | cons a t ih =>
      rw [maxByIdG] at h
      cases hm : maxByIdG idf t with
      | none => rw [hm] at h; cases h; exact List.mem_cons_self _ _
      | some b =>
          rw [hm] at h
          by_cases hc : idf a < idf b
          · simp [hc] at h; exact List.mem_cons_of_mem _ (ih (h ▸ hm))
          · simp [hc] at h; cases h; exact List.mem_cons_self _ _

theorem maxByIdG_le {α : Type} (idf : α → ℕ) (l : List α) (r : α)
    (h : maxByIdG idf l = some r) : ∀ x ∈ l, idf x ≤ idf r := by
  induction l generalizing r with
  | nil => simp [maxByIdG] at h
  | cons a t ih =>
      rw [maxByIdG] at h
      intro x hx
      cases hm : maxByIdG idf t with
      | none =>
          rw [hm] at h; cases h
          rcases List.mem_cons.mp hx with rfl | hx'
          · exact Nat.le_refl _
          · rw [maxByIdG_eq_none idf t hm] at hx'; simp at hx'
      | some b =>
          rw [hm] at h
          rcases List.mem_cons.mp hx with rfl | hx'
          · by_cases hc : idf x < idf b
            · simp [hc] at h; exact h ▸ Nat.le_of_lt hc
            · simp [hc] at h; exact h ▸ Nat.le_refl _
          · have hb := ih b hm x hx'
            by_cases hc : idf a < idf b
            · simp [hc] at h; exact h ▸ hb
            · simp [hc] at h
              exact h ▸ Nat.le_trans hb (Nat.le_of_not_lt hc)

/-! ### Upsert lemmas -/

theorem contractKey_mk (id : ℕ) (p : Payload) :
    contractKey ⟨id, p⟩ = payloadKey p := rfl

theorem contractKey_updateWith (p : Payload) (c : StoredContract) :
    contractKey (updateWith p c) = contractKey c := by
  unfold updateWith
  by_cases hc : contractKey c = payloadKey p
  · rw [if_pos hc]; exact hc.symm ▸ rfl
  · rw [if_neg hc]

theorem countKey_map_updateWith (p : Payload) (db : List StoredContract)
    (k : Val × ℕ) : countKey (db.map (updateWith p)) k = countKey db k := by
  induction db with
  | nil => rfl
  | cons a l ih =>
      simp only [List.map_cons, countKey, List.filter_cons,
        contractKey_updateWith] at *
      by_cases hc : contractKey a = k <;> simp [hc, ih]

theorem findKey_map_updateWith (p : Payload) (db : List StoredContract)
    (k : Val × ℕ) :
    findKey (db.map (updateWith p)) k = (findKey db k).map (updateWith p) := by
  induction db with
  | nil => rfl
  | cons a l ih =>
      show List.find? _ (updateWith p a :: l.map (updateWith p))
        = (List.find? _ (a :: l)).map (updateWith p)
      by_cases hc : contractKey a = k
      · rw [List.find?_cons_of_pos _ (by simp [contractKey_updateWith, hc]),
          List.find?_cons_of_pos _ (by simp [hc])]
        rfl
      · rw [List.find?_cons_of_neg _ (by simp [contractKey_updateWith, hc]),
          List.find?_cons_of_neg _ (by simp [hc])]
        exact ih

theorem countKey_append_single (db : List StoredContract) (x : StoredContract)
    (k : Val × ℕ) :
    countKey (db ++ [x]) k
      = countKey db k + (if contractKey x = k then 1 else 0) := by
  simp only [countKey, List.filter_append, List.length_append, List.filter]
  by_cases hc : contractKey x = k <;> simp [hc]

theorem countKey_eq_zero_iff_findKey (db : List StoredContract) (k : Val × ℕ) :
    countKey db k = 0 ↔ findKey db k = none := by
  induction db with
  | nil => simp [countKey, findKey]
  | cons a l ih =>
      simp only [countKey, findKey, List.filter_cons] at *
      by_cases hc : contractKey a = k
      · simp [hc]
      · simp [hc, ih]

theorem findKey_singleton (x : StoredContract) (k : Val × ℕ) :
    findKey [x] k = if contractKey x = k then some x else none := by
  by_cases hc : contractKey x = k <;> simp [findKey, hc]

theorem findKey_append (db l2 : List StoredContract) (k : Val × ℕ) :
    findKey (db ++ l2) k = (findKey db k).or (findKey l2 k) := by
  simp [findKey, List.find?_append]

theorem upsert_count_other (db : List StoredContract) (p : Payload)
    (k : Val × ℕ) (hk : k ≠ payloadKey p) :
    countKey (upsertContract db p) k = countKey db k := by
  unfold upsertContract
  cases hf : findKey db (payloadKey p) with
  | some c => exact countKey_map_updateWith p db k
  | none =>
      rw [countKey_append_single, contractKey_mk,
        if_neg (fun hpk => hk hpk.symm)]
      rfl

theorem upsert_find_other (db : List StoredContract) (p : Payload)
    (k : Val × ℕ) (hk : k ≠ payloadKey p) :
    findKey (upsertContract db p) k = findKey db k := by
  unfold upsertContract
  cases hf : findKey db (payloadKey p) with
  | some c =>
      rw [findKey_map_updateWith]
      cases hg : findKey db k with
      | none => rfl
      | some c0 =>
          have hg0 : List.find? (fun c => decide (contractKey c = k)) db
              = some c0 := hg
          have hp0 := List.find?_some hg0
          have hc0 : contractKey c0 = k := of_decide_eq_true hp0
          have hne : ¬ contractKey c0 = payloadKey p := fun hcp => hk (hc0 ▸ hcp)
          simp [updateWith, hne]
  | none =>
      rw [findKey_append, findKey_singleton, contractKey_mk,
        if_neg (fun hpk => hk hpk.symm)]
      cases hg : findKey db k <;> rfl

theorem upsert_find_self_of_none (db : List StoredContract) (p : Payload)
    (h : findKey db (payloadKey p) = none) :
    findKey (upsertContract db p) (payloadKey p)
      = some ⟨nextContractId db, p⟩ := by
  unfold upsertContract
  rw [h, findKey_append, h, findKey_singleton, contractKey_mk, if_pos rfl]
  rfl

theorem upsert_find_self_of_some (db : List StoredContract) (p : Payload)
    (c : StoredContract) (h : findKey db (payloadKey p) = some c) :
    findKey (upsertContract db p) (payloadKey p) = some ⟨c.id, p⟩ := by
  unfold upsertContract
  rw [h, findKey_map_updateWith, h]
  have h0 : List.find? (fun x => decide (contractKey x = payloadKey p)) db
      = some c := h
  have hp0 := List.find?_some h0
  have hc : contractKey c = payloadKey p := of_decide_eq_true hp0
  show some (updateWith p c) = some ⟨c.id, p⟩
  rw [updateWith, if_pos hc]

theorem upsert_count_self (db : List StoredContract) (p : Payload)
    (h : countKey db (payloadKey p) = 0) :
    countKey (upsertContract db p) (payloadKey p) = 1 := by
  unfold upsertContract
  rw [(countKey_eq_zero_iff_findKey db _).mp h, countKey_append_single, h,
    contractKey_mk, if_pos rfl]

theorem upsert_count_self_pos (db : List StoredContract) (p : Payload)
    (h : countKey db (payloadKey p) ≠ 0) :
    countKey (upsertContract db p) (payloadKey p) = countKey db (payloadKey p) := by
  unfold upsertContract
  cases hf : findKey db (payloadKey p) with
  | none => exact absurd ((countKey_eq_zero_iff_findKey db _).mpr hf) h
  | some c => exact countKey_map_updateWith p db _

/-! ### Import-loop lemmas -/

theorem payloadKey_buildPayload (refs : Refs) (r : Row) (yc : YearCols)
    (y : ℕ) (now : String) :
    payloadKey (buildPayload refs r yc y now) = (pick r "pr_number", y) := rfl

theorem buildPayload_time (refs : Refs) (r : Row) (yc : YearCols) (y : ℕ)
    (t1 t2 : String) :
    buildPayload refs r yc y t2
      = { buildPayload refs r yc y t1 with created := t2, modified := t2 } := rfl

theorem importYear_warnings (ctx : ImportCtx) (r : Row) (now : String)
    (st : ImportState) (y : ℕ) :
    (importYear ctx r now st y).warnings = st.warnings := by
  unfold importYear
  dsimp only
  split
  · split <;> rfl
  · rfl

theorem importYear_contracts_sig (ctx : ImportCtx) (r : Row) (now : String)
    (st : ImportState) (y : ℕ) (h : hasSignal r (ctx.cols y) = true) :
    (importYear ctx r now st y).contracts
      = upsertContract st.contracts (buildPayload (ctx.refs r) r (ctx.cols y) y now) := by
  unfold importYear
  dsimp only
  rw [if_pos h]
  split <;> rfl

theorem importYear_contracts_nosig (ctx : ImportCtx) (r : Row) (now : String)
    (st : ImportState) (y : ℕ) (h : hasSignal r (ctx.cols y) = false) :
    (importYear ctx r now st y).contracts = st.contracts := by
  unfold importYear
  rw [if_neg (by simp [h])]

theorem importYear_preserve_otherYear (ctx : ImportCtx) (r : Row) (now : String)
    (st : ImportState) (y' : ℕ) (k : Val × ℕ) (hk : k.2 ≠ y') :
    countKey (importYear ctx r now st y').contracts k = countKey st.contracts k ∧
    findKey (importYear ctx r now st y').contracts k = findKey st.contracts k := by
  have hkp : k ≠ payloadKey (buildPayload (ctx.refs r) r (ctx.cols y') y' now) := by
    rw [payloadKey_buildPayload]
    intro hke; exact hk (congrArg Prod.snd hke)
  cases hsig : hasSignal r (ctx.cols y') with
  | true =>
      rw [importYear_contracts_sig ctx r now st y' hsig]
      exact ⟨upsert_count_other _ _ _ hkp, upsert_find_other _ _ _ hkp⟩
  | false =>
      rw [importYear_contracts_nosig ctx r now st y' hsig]
      exact ⟨rfl, rfl⟩

theorem foldl_importYear_preserve (ctx : ImportCtx) (r : Row) (now : String)
    (L : List ℕ) (st : ImportState) (k : Val × ℕ) (h : ∀ y' ∈ L, k.2 ≠ y') :
    countKey ((L.foldl (importYear ctx r now) st)).contracts k
        = countKey st.contracts k ∧
    findKey ((L.foldl (importYear ctx r now) st)).contracts k
        = findKey st.contracts k := by
  induction L generalizing st with
  | nil => exact ⟨rfl, rfl⟩
  | cons y' t ih =>
      rw [List.foldl_cons]
      have hy' : k.2 ≠ y' := h y' (List.mem_cons_self _ _)
      have hstep := importYear_preserve_otherYear ctx r now st y' k hy'
      have hrest := ih (importYear ctx r now st y')
        (fun z hz => h z (List.mem_cons_of_mem _ hz))
      exact ⟨hrest.1.trans hstep.1, hrest.2.trans hstep.2⟩

theorem foldl_importYear_warnings (ctx : ImportCtx) (r : Row) (now : String)
    (L : List ℕ) (st : ImportState) :
    ((L.foldl (importYear ctx r now) st)).warnings = st.warnings := by
  induction L generalizing st with
  | nil => rfl
  | cons y' t ih =>
      rw [List.foldl_cons, ih]
      exact importYear_warnings ctx r now st y'

theorem insert_excel_data_single (ctx : ImportCtx) (now : String) (r : Row)
    (st : ImportState) :
    insert_excel_data ctx now [r] st = importRow ctx now st (0, r) := rfl

theorem importRow_notSkipped (ctx : ImportCtx) (now : String) (st : ImportState)
    (i : ℕ) (r : Row) (h : valFalsy (pick r "pr_number") = false) :
    importRow ctx now st (i, r) = ctx.years.foldl (importYear ctx r now) st := by
  unfold importRow
  rw [if_neg (by simp [h])]

theorem importRow_skipped (ctx : ImportCtx) (now : String) (st : ImportState)
    (i : ℕ) (r : Row) (h : valFalsy (pick r "pr_number") = true) :
    importRow ctx now st (i, r)
      = { st with warnings := st.warnings ++ [skipMsg i] } := by
  unfold importRow
  rw [if_pos h]

/-- The effect of one non-skipped row on the contract store at the key of
one of its detected years `y` (first import into a store without that
key): after the fold over the years, the key holds exactly the payload
for `y` when `y` has signal, and nothing otherwise. -/
theorem foldl_importYear_at_year (ctx : ImportCtx) (r : Row) (now : String)
    (st : ImportState) (y : ℕ) (hy : y ∈ ctx.years) (hnd : ctx.years.Nodup)
    (h0 : countKey st.contracts (pick r "pr_number", y) = 0) :
    (hasSignal r (ctx.cols y) = true →
      countKey ((ctx.years.foldl (importYear ctx r now) st)).contracts
          (pick r "pr_number", y) = 1 ∧
      ∃ n, findKey ((ctx.years.foldl (importYear ctx r now) st)).contracts
          (pick r "pr_number", y)
        = some ⟨n, buildPayload (ctx.refs r) r (ctx.cols y) y now⟩) ∧
    (hasSignal r (ctx.cols y) = false →
      countKey ((ctx.years.foldl (importYear ctx r now) st)).contracts
          (pick r "pr_number", y) = 0) := by
  obtain ⟨l1, l2, hsplit⟩ := List.append_of_mem hy
  set k : Val × ℕ := (pick r "pr_number", y) with hkdef
  have hnd' : (l1 ++ y :: l2).Nodup := hsplit ▸ hnd
  have hyl1 : y ∉ l1 := fun hyl =>
    List.disjoint_of_nodup_append hnd' hyl (List.mem_cons_self _ _)
  have hyl2 : y ∉ l2 := by
    have hr := List.Nodup.of_append_right hnd'
    rw [List.nodup_cons] at hr
    exact hr.1
  have hl1 : ∀ y' ∈ l1, k.2 ≠ y' := by
    intro y' hy' he
    have hyy : y = y' := he
    subst hyy
    exact hyl1 hy'
  have hl2 : ∀ y' ∈ l2, k.2 ≠ y' := by
    intro y' hy' he
    have hyy : y = y' := he
    subst hyy
    exact hyl2 hy'
  rw [hsplit, List.foldl_append, List.foldl_cons]
  have hpre := foldl_importYear_preserve ctx r now l1 st k hl1
  constructor
  · intro hsig
    set mid := l1.foldl (importYear ctx r now) st with hmid
    have hcnt0 : countKey mid.contracts k = 0 := hpre.1.trans h0
    have hfind0 : findKey mid.contracts k = none :=
      (countKey_eq_zero_iff_findKey _ _).mp hcnt0
    have hstep := importYear_contracts_sig ctx r now mid y hsig
    have hkeq : payloadKey (buildPayload (ctx.refs r) r (ctx.cols y) y now) = k :=
      payloadKey_buildPayload _ _ _ _ _
    have hpost := foldl_importYear_preserve ctx r now l2
      (importYear ctx r now mid y) k hl2
    refine ⟨?_, ⟨nextContractId mid.contracts, ?_⟩⟩
    · rw [hpost.1, hstep]
      rw [← hkeq] at hcnt0 ⊢
      exact upsert_count_self _ _ hcnt0
    · rw [hpost.2, hstep]
      rw [← hkeq] at hfind0 ⊢
      exact upsert_find_self_of_none _ _ hfind0
  · intro hsig
    set mid := l1.foldl (importYear ctx r now) st with hmid
    have hcnt0 : countKey mid.contracts k = 0 := hpre.1.trans h0
    have hstep := importYear_contracts_nosig ctx r now mid y hsig
    have hpost := foldl_importYear_preserve ctx r now l2
      (importYear ctx r now mid y) k hl2
    rw [hpost.1]
    have : (importYear ctx r now mid y).contracts = mid.contracts := hstep
    rw [this]
    exact hcnt0

/-- Counterpart of `foldl_importYear_at_year` for a re-import: when the
key of year `y` is already stored as `c1`, the fold updates that row in
place (same surrogate id, payload of the new import) and leaves the
count unchanged. -/
theorem foldl_importYear_at_year_existing (ctx : ImportCtx) (r : Row)
    (now : String) (st : ImportState) (y : ℕ) (hy : y ∈ ctx.years)
    (hnd : ctx.years.Nodup) (hsig : hasSignal r (ctx.cols y) = true)
    (c1 : StoredContract)
    (hfind : findKey st.contracts (pick r "pr_number", y) = some c1) :
    countKey ((ctx.years.foldl (importYear ctx r now) st)).contracts
        (pick r "pr_number", y)
      = countKey st.contracts (pick r "pr_number", y) ∧
    findKey ((ctx.years.foldl (importYear ctx r now) st)).contracts
        (pick r "pr_number", y)
      = some ⟨c1.id, buildPayload (ctx.refs r) r (ctx.cols y) y now⟩ := by
  obtain ⟨l1, l2, hsplit⟩ := List.append_of_mem hy
  set k : Val × ℕ := (pick r "pr_number", y) with hkdef
  have hnd' : (l1 ++ y :: l2).Nodup := hsplit ▸ hnd
  have hyl1 : y ∉ l1 := fun hyl =>
    List.disjoint_of_nodup_append hnd' hyl (List.mem_cons_self _ _)
  have hyl2 : y ∉ l2 := by
    have hr := List.Nodup.of_append_right hnd'
    rw [List.nodup_cons] at hr
    exact hr.1
  have hl1 : ∀ y' ∈ l1, k.2 ≠ y' := by
    intro y' hy' he
    have hyy : y = y' := he
    subst hyy
    exact hyl1 hy'
  have hl2 : ∀ y' ∈ l2, k.2 ≠ y' := by
    intro y' hy' he
    have hyy : y = y' := he
    subst hyy
    exact hyl2 hy'
  rw [hsplit, List.foldl_append, List.foldl_cons]
  have hpre := foldl_importYear_preserve ctx r now l1 st k hl1
  set mid := l1.foldl (importYear ctx r now) st with hmid
  have hfindmid : findKey mid.contracts k = some c1 := hpre.2.trans hfind
  have hcntmid : countKey mid.contracts k ≠ 0 := by
    intro hz
    rw [(countKey_eq_zero_iff_findKey _ _).mp hz] at hfindmid
    cases hfindmid
  have hstep := importYear_contracts_sig ctx r now mid y hsig
  have hkeq : payloadKey (buildPayload (ctx.refs r) r (ctx.cols y) y now) = k :=
    payloadKey_buildPayload _ _ _ _ _
  have hpost := foldl_importYear_preserve ctx r now l2
    (importYear ctx r now mid y) k hl2
  constructor
  · rw [hpost.1, hstep]
    rw [← hkeq] at hcntmid ⊢
    rw [upsert_count_self_pos _ _ hcntmid, hkeq]
    exact hpre.1
  · rw [hpost.2, hstep]
    rw [← hkeq] at hfindmid ⊢
    exact upsert_find_self_of_some _ _ _ hfindmid

/-! ### Claim theorems -/

/-- C2: on the import path, for every canonical record produced for a
year `y`, the stored `approved` flag is 1 iff an approved-budget value
was resolved (parsed to a non-null float) for that row and year, and
`budget_year` is `y` exactly when that value is present, else null. -/
theorem C2_approved_iff_approved_budget (refs : Refs) (r : Row) (yc : YearCols)
    (y : ℕ) (now : String) :
    ((buildPayload refs r yc y now).approved = 1 ↔
      (buildPayload refs r yc y now).approved_budget ≠ none) ∧
    ((buildPayload refs r yc y now).approved_budget ≠ none →
      (buildPayload refs r yc y now).budget_year = some y) ∧
    ((buildPayload refs r yc y now).approved_budget = none →
      (buildPayload refs r yc y now).budget_year = none) ∧
    (buildPayload refs r yc y now).approved_budget = approvedBudgetVal r yc := by
  cases habv : approvedBudgetVal r yc with
  | none => simp [buildPayload, habv]
  | some q => simp [buildPayload, habv]

/-- Witness for C2 at a concrete sheet: a row with approved budget 500
for 2024 stores `approved = 1` and `budget_year = 2024`; a row without
the approved-budget value stores `budget_year = null`. -/
theorem C2_approved_iff_approved_budget_witness :
    (buildPayload refs0 exRow yc2024 2024 "T").approved = 1 ∧
    (buildPayload refs0 exRow yc2024 2024 "T").budget_year = some 2024 ∧
    (buildPayload refs0 rowComma yc2024 2024 "T").budget_year = none := by
  refine ⟨?_, ?_, ?_⟩
  · exact (C2_approved_iff_approved_budget refs0 exRow yc2024 2024 "T").1.mpr
      (by decide)
  · exact (C2_approved_iff_approved_budget refs0 exRow yc2024 2024 "T").2.1
      (by decide)
  · exact (C2_approved_iff_approved_budget refs0 rowComma yc2024 2024 "T").2.2.1
      (by decide)

/-- Counterexample to C3 as stated: importing a row whose 2024
budget-amount cell holds the string `"15,000"` produces
`approval_amount = null`, not `15000.0` — Python's `float` rejects the
thousands separator, and the non-NA string also suppresses the units
fallback. -/
theorem C3_counterexample :
    (buildPayload refs0 rowComma yc2024 2024 "T").approval_amount = none ∧
    (none : Option ℚ) ≠ some 15000 := by
  exact ⟨by decide, by decide⟩

/-- C3 (amended): a budget-amount cell holding the string `"15,000"`
yields `approval_amount = null` (the float coercion fails on the comma);
a numeric 15000 yields `15000.0`; and when the budget cell is absent or
blank (NA) while a units column and a global unit cost are present and
numeric, `approval_amount = units × unit_cost` — concretely 10 × 1500 =
`15000.0`. -/
theorem C3_amount_via_units (refs : Refs) (r : Row) (yc : YearCols)
    (y : ℕ) (now : String) (cu : String) (u c : ℚ)
    (hbud : isna (rowGetO r yc.budgetCol) = true)
    (hcol : yc.unitsCol = some cu)
    (hval : rowGet r cu = Val.num u)
    (huc : unitCostOf r = some c) :
    (buildPayload refs r yc y now).approval_amount = some (qMul u c) := by
  have hamt : computeAmt r yc (unitCostOf r) = Val.num (qMul u c) := by
    unfold computeAmt
    rw [huc, hcol]
    simp only [hbud, Option.isSome_some, Bool.and_true, Bool.true_and,
      if_pos rfl]
    simp [rowGetO, hval, isna, pyFloat]
  show to_float (computeAmt r yc (unitCostOf r)) = some (qMul u c)
  rw [hamt]
  rfl

/-- Witness for C3 (amended): the blank-budget row with units 10 and
unit cost 1500 produces `approval_amount = 15000.0`, and the numeric
15000 budget cell also does. -/
theorem C3_amount_via_units_witness :
    (buildPayload refs0 rowUnits yc2024 2024 "T").approval_amount = some 15000 ∧
    (buildPayload refs0 [("pr", Val.str "PR1"), ("2024 budget", Val.num 15000)]
        yc2024 2024 "T").approval_amount = some 15000 := by
  constructor
  · have h := C3_amount_via_units refs0 rowUnits yc2024 2024 "T"
      "2024 units" 10 1500 (by decide) (by decide) (by decide) (by decide)
    rw [h]
    decide
  · decide

/-- C4: `_to_date_str` tries a day-first parse first, then a month-first
parse, then an Excel-serial interpretation (days since 1899-12-30,
accepted only for values in [1, 80000]); it returns null when all
attempts fail and, being a total function into `Option`, never raises.
In particular `"05-03-2024"` parses day-first to `2024-03-05` even
though the month-first reading (`2024-05-03`) also exists, and serial
45000 is 2023-03-15. -/
theorem C4_to_date_str_spec :
    (∀ s dt, dayFirstParse (pyStrip s) = some dt →
        to_date_str (Val.str s) = some (isoStr dt)) ∧
    (∀ s dt, dayFirstParse (pyStrip s) = none →
        monthFirstParse (pyStrip s) = some dt →
        to_date_str (Val.str s) = some (isoStr dt)) ∧
    (∀ s, dayFirstParse (pyStrip s) = none → monthFirstParse (pyStrip s) = none →
        numericLike (pyStrip s) = false → to_date_str (Val.str s) = none) ∧
    (∀ q, dayFirstParse (pyFloatStr q) = none →
        monthFirstParse (pyFloatStr q) = none →
        to_date_str (Val.num q)
          = if 1 ≤ q && q ≤ 80000 then some (serialIso q) else none) ∧
    to_date_str (Val.str "05-03-2024") = some "2024-03-05" ∧
    monthFirstParse "05-03-2024" = some ⟨2024, 5, 3⟩ ∧
    to_date_str (Val.num 45000) = some "2023-03-15" ∧
    to_date_str Val.none_ = none ∧ to_date_str Val.nan = none := by
  have hblankD : dayFirstParse "" = none := by decide
  have hblankM : monthFirstParse "" = none := by decide
  refine ⟨?_, ?_, ?_, ?_, by decide, by decide, by decide, rfl, rfl⟩
  · intro s dt h
    have hne : ¬ pyStrip s = "" := by
      intro he; rw [he, hblankD] at h; cases h
    show (if pyStrip s = "" then none else _) = _
    rw [if_neg hne]
    unfold dateCascade
    rw [h]
  · intro s dt h1 h2
    have hne : ¬ pyStrip s = "" := by
      intro he; rw [he, hblankM] at h2; cases h2
    show (if pyStrip s = "" then none else _) = _
    rw [if_neg hne]
    unfold dateCascade
    rw [h1, h2]
  · intro s h1 h2 h3
    by_cases hne : pyStrip s = ""
    · show (if pyStrip s = "" then none else _) = _
      rw [if_pos hne]
    · show (if pyStrip s = "" then none else _) = _
      rw [if_neg hne, h3]
      unfold dateCascade
      rw [h1, h2]
      rfl
  · intro q h1 h2
    show dateCascade (pyFloatStr q) (some q) = _
    unfold dateCascade
    rw [h1, h2]

/-- Witness for C4: the universally-quantified parts applied at concrete
inputs — `"7/4/2024"` parses day-first to 2024-04-07, `"hello"` fails
every attempt and yields null, and numeric 45000 passes the serial
guard while 80001 does not. -/
theorem C4_to_date_str_spec_witness :
    to_date_str (Val.str "7/4/2024") = some "2024-04-07" ∧
    to_date_str (Val.str "hello") = none ∧
    to_date_str (Val.num 45000) = some (serialIso 45000) ∧
    to_date_str (Val.num 80001) = none := by
  refine ⟨?_, ?_, ?_, ?_⟩
  · have h := C4_to_date_str_spec.1 "7/4/2024" ⟨2024, 4, 7⟩ (by decide)
    rw [h]; decide
  · exact C4_to_date_str_spec.2.2.1 "hello" (by decide) (by decide) (by decide)
  · have h := C4_to_date_str_spec.2.2.2.1 45000 (by decide) (by decide)
    rw [h]; decide
  · have h := C4_to_date_str_spec.2.2.2.1 80001 (by decide) (by decide)
    rw [h]; decide

/-- Counterexample to C1 as stated: importing the same row twice (at
the times T1 and T2) leaves exactly one record, but the stored
`created` timestamp — not only `modified` — advances to T2, because the
upsert overwrites every non-key column including `created`. -/
theorem C1_counterexample :
    (findKey (insert_excel_data ctx2024 "2024-01-01T00:00:00" [exRow]
        emptyImport).contracts (Val.str "PR1", 2024)).map (·.data.created)
      = some "2024-01-01T00:00:00" ∧
    (findKey (insert_excel_data ctx2024 "2024-01-02T00:00:00" [exRow]
        (insert_excel_data ctx2024 "2024-01-01T00:00:00" [exRow]
          emptyImport)).contracts (Val.str "PR1", 2024)).map (·.data.created)
      = some "2024-01-02T00:00:00" ∧
    "2024-01-02T00:00:00" ≠ "2024-01-01T00:00:00" := by
  refine ⟨by decide, by decide, by decide⟩

/-- C1 (amended): importing a row twice with identical values yields
exactly one contract record for its (pr_number, year) key — the
re-import updates the existing row in place (same surrogate id) — and of
the stored fields exactly the `created` and `modified` timestamps
advance between the two imports (the upsert updates all non-key
columns, so `created` is overwritten along with `modified`). -/
theorem C1_import_twice_single_record (ctx : ImportCtx) (r : Row) (y : ℕ)
    (st : ImportState) (t1 t2 : String)
    (hpr : valFalsy (pick r "pr_number") = false)
    (hy : y ∈ ctx.years) (hnd : ctx.years.Nodup)
    (hsig : hasSignal r (ctx.cols y) = true)
    (h0 : countKey st.contracts (pick r "pr_number", y) = 0) :
    countKey (insert_excel_data ctx t2 [r]
        (insert_excel_data ctx t1 [r] st)).contracts (pick r "pr_number", y) = 1 ∧
    ∃ c1 c2,
      findKey (insert_excel_data ctx t1 [r] st).contracts
          (pick r "pr_number", y) = some c1 ∧
      findKey (insert_excel_data ctx t2 [r]
          (insert_excel_data ctx t1 [r] st)).contracts
          (pick r "pr_number", y) = some c2 ∧
      c2.id = c1.id ∧
      c1.data = buildPayload (ctx.refs r) r (ctx.cols y) y t1 ∧
      c2.data = { buildPayload (ctx.refs r) r (ctx.cols y) y t1 with
                    created := t2, modified := t2 } := by
  have h1 : insert_excel_data ctx t1 [r] st
      = ctx.years.foldl (importYear ctx r t1) st := by
    rw [insert_excel_data_single, importRow_notSkipped _ _ _ _ _ hpr]
  have hfirst := foldl_importYear_at_year ctx r t1 st y hy hnd h0
  have hcnt1 := (hfirst.1 hsig).1
  obtain ⟨n, hfind1⟩ := (hfirst.1 hsig).2
  set st1 := ctx.years.foldl (importYear ctx r t1) st with hst1
  have h2 : insert_excel_data ctx t2 [r] (insert_excel_data ctx t1 [r] st)
      = ctx.years.foldl (importYear ctx r t2) st1 := by
    rw [h1, insert_excel_data_single, importRow_notSkipped _ _ _ _ _ hpr]
  have hsecond := foldl_importYear_at_year_existing ctx r t2 st1 y hy hnd hsig
    ⟨n, buildPayload (ctx.refs r) r (ctx.cols y) y t1⟩ hfind1
  constructor
  · rw [h2, hsecond.1]
    exact hcnt1
  · refine ⟨⟨n, buildPayload (ctx.refs r) r (ctx.cols y) y t1⟩,
      ⟨n, buildPayload (ctx.refs r) r (ctx.cols y) y t2⟩, ?_, ?_, rfl, rfl, ?_⟩
    · rw [h1]; exact hfind1
    · rw [h2]; exact hsecond.2
    · exact buildPayload_time (ctx.refs r) r (ctx.cols y) y t1 t2

/-- Witness for C1 (amended) at the concrete example sheet. -/
theorem C1_import_twice_single_record_witness :
    countKey (insert_excel_data ctx2024 "T2" [exRow]
        (insert_excel_data ctx2024 "T1" [exRow] emptyImport)).contracts
        (Val.str "PR1", 2024) = 1 := by
  have h := C1_import_twice_single_record ctx2024 exRow 2024 emptyImport
    "T1" "T2" (by decide) (by decide) (by decide) (by decide) (by decide)
  have hpr : pick exRow "pr_number" = Val.str "PR1" := by decide
  rw [← hpr]
  exact h.1

/-- Counterexample to C5 as stated: a row with a non-null 2024 budget
value (so the year has signal) but a missing PR number produces no
record at all — the biconditional "record emitted iff some per-year
column is non-null" fails for rows whose reference number is absent. -/
theorem C5_counterexample :
    hasSignal rowNoPr yc2024 = true ∧
    (insert_excel_data ctx2024 "T" [rowNoPr] emptyImport).contracts = [] := by
  exact ⟨by decide, by decide⟩

/-- C5 (amended): for every input row whose PR-number field resolves to
a truthy value, and every detected year `y`, the import emits exactly
one canonical record for (row, y) iff at least one of the five per-year
columns resolved for `y` (budget amount, unit count, PO amount, PO
number, approved budget) holds a non-null value in the row; otherwise
year `y` contributes no record for that row. -/
theorem C5_record_iff_signal (ctx : ImportCtx) (r : Row) (now : String) (y : ℕ)
    (hpr : valFalsy (pick r "pr_number") = false)
    (hy : y ∈ ctx.years) (hnd : ctx.years.Nodup) :
    countKey (insert_excel_data ctx now [r] emptyImport).contracts
        (pick r "pr_number", y)
      = if hasSignal r (ctx.cols y) then 1 else 0 := by
  rw [insert_excel_data_single, importRow_notSkipped _ _ _ _ _ hpr]
  have h := foldl_importYear_at_year ctx r now emptyImport y hy hnd rfl
  cases hsig : hasSignal r (ctx.cols y) with
  | true => rw [if_pos rfl]; exact (h.1 hsig).1
  | false => rw [if_neg (by simp)]; exact h.2 hsig

/-- Witness for C5 (amended): the example row yields exactly one (PR1,
2024) record, and a row whose only 2024 columns are all NA yields none. -/
theorem C5_record_iff_signal_witness :
    countKey (insert_excel_data ctx2024 "T" [exRow] emptyImport).contracts
        (Val.str "PR1", 2024) = 1 ∧
    countKey (insert_excel_data ctx2024 "T"
        [[("pr", Val.str "PR2"), ("2024 budget", Val.nan)]]
        emptyImport).contracts (Val.str "PR2", 2024) = 0 := by
  constructor
  · have h := C5_record_iff_signal ctx2024 exRow "T" 2024
      (by decide) (by decide) (by decide)
    have hpr : pick exRow "pr_number" = Val.str "PR1" := by decide
    rw [← hpr, h]
    decide
  · have h := C5_record_iff_signal ctx2024
      [("pr", Val.str "PR2"), ("2024 budget", Val.nan)] "T" 2024
      (by decide) (by decide) (by decide)
    have hpr : pick [("pr", Val.str "PR2"), ("2024 budget", Val.nan)]
        "pr_number" = Val.str "PR2" := by decide
    rw [hpr] at h
    rw [h]
    decide

/-- C6: a row whose PR-number field is absent (resolves falsy) is
skipped entirely — no contract record, no PO record, and a user-visible
warning naming the row — while a row whose PR number is present is never
skipped and produces no warning, whatever other fields are missing. -/
theorem C6_missing_pr_skips (ctx : ImportCtx) (now : String) (st : ImportState)
    (i : ℕ) (r : Row) :
    (valFalsy (pick r "pr_number") = true →
      (importRow ctx now st (i, r)).contracts = st.contracts ∧
      (importRow ctx now st (i, r)).pos = st.pos ∧
      (importRow ctx now st (i, r)).warnings = st.warnings ++ [skipMsg i]) ∧
    (valFalsy (pick r "pr_number") = false →
      (importRow ctx now st (i, r)).warnings = st.warnings) := by
  constructor
  · intro h
    rw [importRow_skipped _ _ _ _ _ h]
    exact ⟨rfl, rfl, rfl⟩
  · intro h
    rw [importRow_notSkipped _ _ _ _ _ h]
    exact foldl_importYear_warnings ctx r now ctx.years st

/-- Witness for C6: the PR-less row is skipped with the row-1 warning
and writes nothing; the row with a PR number (and every other field
absent) is processed without any warning. -/
theorem C6_missing_pr_skips_witness :
    (importRow ctx2024 "T" emptyImport (0, rowNoPr)).contracts = [] ∧
    (importRow ctx2024 "T" emptyImport (0, rowNoPr)).warnings
      = ["Row 1: Missing PR Number. Skipped."] ∧
    (importRow ctx2024 "T" emptyImport (0, rowB40k)).warnings = [] := by
  have h1 := (C6_missing_pr_skips ctx2024 "T" emptyImport 0 rowNoPr).1 (by decide)
  have h2 := (C6_missing_pr_skips ctx2024 "T" emptyImport 0 rowB40k).2 (by decide)
  exact ⟨h1.1, h1.2.2, h2⟩

/-- C7: the reported budget utilization is consumed / budget × 100,
where consumed sums the approved-budget amounts of contracts with
`budget_year = Y` and budget is the value of the yearly-budget row for
`Y` with the highest surrogate id (last write wins); when no positive
budget target exists for `Y`, the KPI renders as "N/A" — never zero and,
the computation being total, never an error. -/
theorem C7_utilization_spec (db : List StoredContract) (yb : List YBRow)
    (y : ℕ) :
    (∀ rmax, maxByIdG (·.id) (yb.filter (fun w => decide (w.year = y)))
        = some rmax →
      rmax ∈ yb ∧ rmax.year = y ∧
      (∀ w ∈ yb, w.year = y → w.id ≤ rmax.id) ∧
      (0 < rmax.value.getD 0 →
        utilization db yb y
          = some (qMul (qDiv (consumedFor db y) (rmax.value.getD 0)) 100))) ∧
    ((∀ w ∈ yb, w.year = y → w.value.getD 0 ≤ 0) →
      utilizationDisplay db yb y = "N/A") := by
  constructor
  · intro rmax hmax
    have hmem := maxByIdG_mem (·.id) _ rmax hmax
    have hmem' := List.mem_filter.mp hmem
    have hyear : rmax.year = y := of_decide_eq_true hmem'.2
    refine ⟨hmem'.1, hyear, ?_, ?_⟩
    · intro w hw hwy
      exact maxByIdG_le (·.id) _ rmax hmax w
        (List.mem_filter.mpr ⟨hw, decide_eq_true hwy⟩)
    · intro hpos
      unfold utilization homeBudget
      rw [hmax]
      rw [if_pos hpos]
  · intro hall
    unfold utilizationDisplay utilization homeBudget
    cases hmax : maxByIdG (·.id) (yb.filter (fun w => decide (w.year = y))) with
    | none => rw [if_neg (by norm_num)]
    | some rmax =>
        have hmem := maxByIdG_mem (·.id) _ rmax hmax
        have hmem' := List.mem_filter.mp hmem
        have hle : rmax.value.getD 0 ≤ 0 :=
          hall rmax hmem'.1 (of_decide_eq_true hmem'.2)
        rw [if_neg (not_lt_of_le hle)]

/-- Witness for C7: with a 40 000 consumed figure and a 100 000 target
for 2024 the utilization is 40 %, and with no target row at all the KPI
renders "N/A". -/
theorem C7_utilization_spec_witness :
    utilization [⟨1, buildPayload refs0 rowB40k yc2024 2024 "T"⟩]
        [⟨1, 2024, some 100000⟩] 2024 = some 40 ∧
    fmt_pct 40 = "40.0%" ∧
    utilizationDisplay [⟨1, buildPayload refs0 rowB40k yc2024 2024 "T"⟩]
        [] 2024 = "N/A" := by
  refine ⟨?_, by decide, ?_⟩
  · have h := (C7_utilization_spec
        [⟨1, buildPayload refs0 rowB40k yc2024 2024 "T"⟩]
        [⟨1, 2024, some 100000⟩] 2024).1 ⟨1, 2024, some 100000⟩ (by decide)
    have h2 := h.2.2.2 (by decide)
    rw [h2]
    decide
  · exact (C7_utilization_spec
      [⟨1, buildPayload refs0 rowB40k yc2024 2024 "T"⟩] [] 2024).2
      (by intro w hw; cases hw)

/-- C8: deleting a contract record via the manual delete removes only
that row from the contracts table — every purchase-order row and every
attachment row present before the delete is still present, unchanged,
afterwards (no cascade), and the other contract rows are untouched. -/
theorem C8_delete_no_cascade (db : AppDB) (rid : ℕ) :
    (delete_record rid db).pos = db.pos ∧
    (delete_record rid db).attachments = db.attachments ∧
    (∀ c, c ∈ (delete_record rid db).contracts ↔
        c ∈ db.contracts ∧ c.id ≠ rid) := by
  refine ⟨rfl, rfl, ?_⟩
  intro c
  simp [delete_record, List.mem_filter]

/-- Witness for C8 at a one-row database with one PO and one attachment:
the PO and attachment survive the delete, the contract does not. -/
theorem C8_delete_no_cascade_witness :
    (delete_record 1
        ⟨[⟨1, buildPayload refs0 exRow yc2024 2024 "T"⟩],
         [mkImportPO 1 (Val.str "PR1") 2024 (Val.str "PO9") Val.none_ "T"],
         [⟨1, "amc_contracts", 1, "f.pdf", "attachments/amc_1/f.pdf"⟩]⟩).pos
      = [mkImportPO 1 (Val.str "PR1") 2024 (Val.str "PO9") Val.none_ "T"] ∧
    (delete_record 1
        ⟨[⟨1, buildPayload refs0 exRow yc2024 2024 "T"⟩],
         [mkImportPO 1 (Val.str "PR1") 2024 (Val.str "PO9") Val.none_ "T"],
         [⟨1, "amc_contracts", 1, "f.pdf", "attachments/amc_1/f.pdf"⟩]⟩).attachments
      = [⟨1, "amc_contracts", 1, "f.pdf", "attachments/amc_1/f.pdf"⟩] ∧
    ⟨1, buildPayload refs0 exRow yc2024 2024 "T"⟩ ∉
      (delete_record 1
        ⟨[⟨1, buildPayload refs0 exRow yc2024 2024 "T"⟩],
         [mkImportPO 1 (Val.str "PR1") 2024 (Val.str "PO9") Val.none_ "T"],
         [⟨1, "amc_contracts", 1, "f.pdf", "attachments/amc_1/f.pdf"⟩]⟩).contracts := by
  refine ⟨(C8_delete_no_cascade _ 1).1, (C8_delete_no_cascade _ 1).2.1, ?_⟩
  intro hmem
  exact (((C8_delete_no_cascade _ 1).2.2 _).mp hmem).2 rfl

/-- C9: PO rows created by the bulk import carry no `ref_amc_contract`
link (only the textual (pr_number, year) pair), while the edit page's
PO retrieval and PO upsert select rows by `ref_amc_contract`; hence a
PO row created by the import is never returned by
`fetch_pos_for_contract_year` and never updated by `upsert_amc_pos`. -/
theorem C9_import_pos_invisible_to_edit (pos : List PORow) (ref y : ℕ)
    (idv y' : ℕ) (pr poNo poAmt : Val) (now : String)
    (pra poa : ℚ) (prn pon : String)
    (hnd : (pos.map (·.id)).Nodup) :
    (mkImportPO idv pr y' poNo poAmt now).ref_amc_contract = none ∧
    (∀ p, fetch_pos_for_contract_year pos ref y = some p →
        p.ref_amc_contract = some ref ∧ p.year = y) ∧
    (∀ p ∈ pos, p.ref_amc_contract = none →
        fetch_pos_for_contract_year pos ref y ≠ some p ∧
        p ∈ upsert_amc_pos pos ref y pra prn pon poa now) := by
  have hsel : ∀ p, maxByIdG (·.id)
      (pos.filter (fun w => decide (w.ref_amc_contract = some ref ∧ w.year = y)))
        = some p → p.ref_amc_contract = some ref ∧ p.year = y := by
    intro p hp
    have hmem := maxByIdG_mem (·.id) _ p hp
    exact of_decide_eq_true (List.mem_filter.mp hmem).2
  refine ⟨rfl, ?_, ?_⟩
  · intro p hp
    exact hsel p hp
  · intro p hp hrefnone
    constructor
    · intro hfetch
      have := (hsel p hfetch).1
      rw [hrefnone] at this
      cases this
    · unfold upsert_amc_pos
      cases hmax : maxByIdG (·.id)
          (pos.filter
            (fun w => decide (w.ref_amc_contract = some ref ∧ w.year = y))) with
      | none => exact List.mem_append_left _ hp
      | some found =>
          have hfref : found.ref_amc_contract = some ref := (hsel found hmax).1
          have hne : p.id ≠ found.id := by
            intro hid
            have hmemf := maxByIdG_mem (·.id) _ found hmax
            have hfpos := (List.mem_filter.mp hmemf).1
            have hpf : p = found :=
              List.inj_on_of_nodup_map hnd hp hfpos hid
            rw [hpf, hfref] at hrefnone
            cases hrefnone
          have hmm := List.mem_map_of_mem (fun w : PORow =>
            if w.id = found.id then
              { w with po_amount := some poa, po_number := some pon,
                       pr_amount := some pra, pr_number := some prn,
                       modified := now, modified_by := "admin",
                       version := w.version + 1 } else w) hp
          simp only [if_neg hne] at hmm
          exact hmm

/-- Witness for C9 at a database holding one import-created PO row. -/
theorem C9_import_pos_invisible_to_edit_witness :
    fetch_pos_for_contract_year
        [mkImportPO 1 (Val.str "PR1") 2024 (Val.str "PO9") Val.none_ "T"] 7 2024
      ≠ some (mkImportPO 1 (Val.str "PR1") 2024 (Val.str "PO9") Val.none_ "T") ∧
    mkImportPO 1 (Val.str "PR1") 2024 (Val.str "PO9") Val.none_ "T" ∈
      upsert_amc_pos
        [mkImportPO 1 (Val.str "PR1") 2024 (Val.str "PO9") Val.none_ "T"]
        7 2024 500 "PR1" "PO77" 600 "T2" := by
  have h := (C9_import_pos_invisible_to_edit
      [mkImportPO 1 (Val.str "PR1") 2024 (Val.str "PO9") Val.none_ "T"]
      7 2024 1 2024 (Val.str "PR1") (Val.str "PO9") Val.none_ "T2"
      500 600 "PR1" "PO77" (by decide)).2.2
      (mkImportPO 1 (Val.str "PR1") 2024 (Val.str "PO9") Val.none_ "T")
      (List.mem_singleton.mpr rfl) rfl
  exact h

/-- C10: the manual add form's duplicate check tests only the reference
number, not the (reference number, fiscal year) pair — whenever any
contract with the given `pr_number` exists in any fiscal year, the
submission is rejected with a validation error, even for a year not yet
present (stricter than the import path's (pr_number, year) natural
key). -/
theorem C10_duplicate_check_ignores_year (db : List StoredContract) (pr : Val)
    (others : List String) :
    (is_pr_number_exists db pr = true ↔ ∃ c ∈ db, c.data.pr_number = pr) ∧
    ((∃ c ∈ db, c.data.pr_number = pr) →
      addSubmitRejected db pr others = true) := by
  have hiff : is_pr_number_exists db pr = true ↔ ∃ c ∈ db, c.data.pr_number = pr := by
    simp [is_pr_number_exists, List.any_eq_true]
  refine ⟨hiff, ?_⟩
  intro hex
  unfold addSubmitRejected addSubmitErrors
  rw [hiff.mpr hex]
  simp

/-- Witness for C10: a database holding only a (PR1, 2023) record has no
(PR1, 2024) row under the import's natural key, yet a manual add of PR1
for 2024 is rejected. -/
theorem C10_duplicate_check_ignores_year_witness :
    countKey [⟨1, buildPayload refs0 exRow yc2024 2023 "T"⟩]
        (Val.str "PR1", 2024) = 0 ∧
    addSubmitRejected [⟨1, buildPayload refs0 exRow yc2024 2023 "T"⟩]
        (Val.str "PR1") [] = true := by
    refine ⟨by decide, ?_⟩
    exact (C10_duplicate_check_ignores_year
        [⟨1, buildPayload refs0 exRow yc2024 2023 "T"⟩] (Val.str "PR1") []).2
      ⟨⟨1, buildPayload refs0 exRow yc2024 2023 "T"⟩,
        List.mem_singleton.mpr rfl, by decide⟩

end Opex
